import Mathlib

/-!
Verification of the `@tsonic/dotnet-globals` ambient type surface.

The package ships two variants of one declaration file (`src/index.d.ts`):
a plain-index variant whose `Array` index signature uses `number` and which
declares the full iterator/generator family, and a typed-index variant whose
`Array` index signature uses the `int` type imported from `@tsonic/types`
and which declares only the minimal iterator family.  Both variants are
embedded below as explicit declaration lists, transcribed member by member
from the source, and the spec claims are settled as theorems over this data.
-/

namespace DotnetGlobals

/-- Modifier that a mapped type applies to the members it produces:
none, add `?`, remove `?` (`-?`), or add `readonly`. -/
inductive MapMod where
  | plain
  | addOpt
  | subOpt
  | addRo
deriving DecidableEq, Repr

/-- Syntax of the TypeScript type expressions that occur in `src/index.d.ts`.
Type references, unions, keyword types, literal types, function and
constructor types, array and tuple types, `keyof`, indexed access, mapped
types, conditional types with `infer`, and the `intrinsic` keyword.
Type parameters (`tparam`) and value parameters (`param`) are folded into
the same inductive so that signatures can carry them in plain lists. -/
inductive Ty where
  | ref (name : String) (args : List Ty)
  | union (parts : List Ty)
  | anyT
  | neverT
  | undefinedT
  | nullT
  | voidT
  | unknownT
  | symbolT
  | numberT
  | stringT
  | booleanT
  | litTrue
  | litFalse
  | litNat (n : Nat)
  | tparam (name : String) (constraint : Option Ty) (dflt : Option Ty)
  | param (name : String) (optional : Bool) (rest : Bool) (ty : Ty)
  | fnTy (params : List Ty) (ret : Ty)
  | ctorTy (params : List Ty) (ret : Ty)
  | arrTy (ro : Bool) (elem : Ty)
  | tupleTy (elems : List Ty)
  | keyofT (t : Ty)
  | idxAcc (t k : Ty)
  | mapped (binder : String) (src : Ty) (m : MapMod) (val : Ty)
  | condTy (chk ext tru fls : Ty)
  | inferT (name : String)
  | intrinsicT

/-- One member of an interface declaration: an index signature, a property,
a named method, a well-known-symbol method (`[Symbol.sym](): ret` — all such
members in the source take no parameters), or a construct signature. -/
inductive Member where
  | idxSig (ro : Bool) (binder : String) (key : Ty) (val : Ty)
  | field (ro : Bool) (opt : Bool) (name : String) (ty : Ty)
  | method (opt : Bool) (name : String) (tparams : List Ty) (params : List Ty) (ret : Ty)
  | wkMethod (sym : String) (ret : Ty)
  | ctorSig (tparams : List Ty) (params : List Ty) (ret : Ty)

/-- One global declaration inside `declare global { ... }`: an interface
(with type parameters, extends clause and member list), a type alias, or an
ambient `const`. -/
inductive Decl where
  | iface (name : String) (tparams : List Ty) (parents : List Ty) (members : List Member)
  | tyAlias (name : String) (tparams : List Ty) (body : Ty)
  | constDecl (name : String) (ty : Ty)

/-- One variant of the package: its imports (local name, module specifier)
and its global declarations in source order. -/
structure Variant where
  imports : List (String × String)
  decls : List Decl

/-! Leaf shorthands for the type-variable references that recur throughout
the declaration file.  These are pure notation for `Ty.ref name []`. -/

def tT : Ty := .ref ("T") []

def tK : Ty := .ref ("K") []

def tP : Ty := .ref ("P") []

def tU : Ty := .ref ("U") []

def tR : Ty := .ref ("R") []

def tTReturn : Ty := .ref ("TReturn") []

def tTNext : Ty := .ref ("TNext") []

def tTResult1 : Ty := .ref ("TResult1") []

def tTResult2 : Ty := .ref ("TResult2") []

def tTResult : Ty := .ref ("TResult") []

/-- The plain-index variant of `src/index.d.ts` (the variant without the
`@tsonic/types` import): every global declaration in source order.
`Array<T>` and `ReadonlyArray<T>` index with `number`; `SymbolConstructor`
exposes `iterator` and `asyncIterator`; the full iterator, async-iterator
and generator family is declared. -/
def plainVariant : Variant where
  imports := []
  decls := [
    .iface ("Array") [.tparam ("T") none none] []
      [.idxSig false ("n") .numberT tT],
    .iface ("ReadonlyArray") [.tparam ("T") none none] []
      [.idxSig true ("n") .numberT tT],
    .iface ("String") [] [] [],
    .iface ("Number") [] [] [],
    .iface ("Boolean") [] [] [],
    .iface ("Object") [] []
      [.field false false ("constructor") (.ref ("Function") [])],
    .iface ("Function") [] []
      [.field false false ("prototype") .anyT],
    .iface ("CallableFunction") [] [.ref ("Function") []] [],
    .iface ("NewableFunction") [] [.ref ("Function") []] [],
    .iface ("IArguments") [] [] [],
    .iface ("RegExp") [] [] [],
    .iface ("SymbolConstructor") [] []
      [.field true false ("iterator") .symbolT,
       .field true false ("asyncIterator") .symbolT],
    .constDecl ("Symbol") (.ref ("SymbolConstructor") []),
    .tyAlias ("PropertyKey") [] (.union [.stringT, .numberT, .symbolT]),
    .tyAlias ("Partial") [.tparam ("T") none none]
      (.mapped ("P") (.keyofT tT) .addOpt (.idxAcc tT tP)),
    .tyAlias ("Required") [.tparam ("T") none none]
      (.mapped ("P") (.keyofT tT) .subOpt (.idxAcc tT tP)),
    .tyAlias ("Readonly") [.tparam ("T") none none]
      (.mapped ("P") (.keyofT tT) .addRo (.idxAcc tT tP)),
    .tyAlias ("Pick") [.tparam ("T") none none, .tparam ("K") (some (.keyofT tT)) none]
      (.mapped ("P") tK .plain (.idxAcc tT tP)),
    .tyAlias ("Record") [.tparam ("K") (some (.keyofT .anyT)) none, .tparam ("T") none none]
      (.mapped ("P") tK .plain tT),
    .tyAlias ("Exclude") [.tparam ("T") none none, .tparam ("U") none none]
      (.condTy tT tU .neverT tT),
    .tyAlias ("Extract") [.tparam ("T") none none, .tparam ("U") none none]
      (.condTy tT tU tT .neverT),
    .tyAlias ("Omit") [.tparam ("T") none none, .tparam ("K") (some (.keyofT .anyT)) none]
      (.ref ("Pick") [tT, .ref ("Exclude") [.keyofT tT, tK]]),
    .tyAlias ("NonNullable") [.tparam ("T") none none]
      (.condTy tT (.union [.nullT, .undefinedT]) .neverT tT),
    .tyAlias ("Parameters")
      [.tparam ("T") (some (.fnTy [.param ("args") false true .anyT] .anyT)) none]
      (.condTy tT (.fnTy [.param ("args") false true (.inferT ("P"))] .anyT) tP .neverT),
    .tyAlias ("ReturnType")
      [.tparam ("T") (some (.fnTy [.param ("args") false true .anyT] .anyT)) none]
      (.condTy tT (.fnTy [.param ("args") false true .anyT] (.inferT ("R"))) tR .anyT),
    .tyAlias ("InstanceType")
      [.tparam ("T") (some (.ctorTy [.param ("args") false true .anyT] .anyT)) none]
      (.condTy tT (.ctorTy [.param ("args") false true .anyT] (.inferT ("R"))) tR .anyT),
    .iface ("Promise") [.tparam ("T") none none] []
      [.method false ("then")
        [.tparam ("TResult1") none (some tT), .tparam ("TResult2") none (some .neverT)]
        [.param ("onfulfilled") true false
          (.union [.fnTy [.param ("value") false false tT]
                     (.union [tTResult1, .ref ("PromiseLike") [tTResult1]]),
                   .undefinedT, .nullT]),
         .param ("onrejected") true false
          (.union [.fnTy [.param ("reason") false false .anyT]
                     (.union [tTResult2, .ref ("PromiseLike") [tTResult2]]),
                   .undefinedT, .nullT])]
        (.ref ("Promise") [.union [tTResult1, tTResult2]]),
       .method false ("catch")
        [.tparam ("TResult") none (some .neverT)]
        [.param ("onrejected") true false
          (.union [.fnTy [.param ("reason") false false .anyT]
                     (.union [tTResult, .ref ("PromiseLike") [tTResult]]),
                   .undefinedT, .nullT])]
        (.ref ("Promise") [.union [tT, tTResult]])],
    .iface ("PromiseLike") [.tparam ("T") none none] []
      [.method false ("then")
        [.tparam ("TResult1") none (some tT), .tparam ("TResult2") none (some .neverT)]
        [.param ("onfulfilled") true false
          (.union [.fnTy [.param ("value") false false tT]
                     (.union [tTResult1, .ref ("PromiseLike") [tTResult1]]),
                   .undefinedT, .nullT]),
         .param ("onrejected") true false
          (.union [.fnTy [.param ("reason") false false .anyT]
                     (.union [tTResult2, .ref ("PromiseLike") [tTResult2]]),
                   .undefinedT, .nullT])]
        (.ref ("PromiseLike") [.union [tTResult1, tTResult2]])],
    .iface ("PromiseConstructor") [] []
      [.ctorSig [.tparam ("T") none none]
        [.param ("executor") false false
          (.fnTy [.param ("resolve") false false
                    (.fnTy [.param ("value") false false
                              (.union [tT, .ref ("PromiseLike") [tT]])] .voidT),
                  .param ("reject") false false
                    (.fnTy [.param ("reason") true false .anyT] .voidT)]
            .voidT)]
        (.ref ("Promise") [tT]),
       .method false ("resolve") [.tparam ("T") none none]
        [.param ("value") false false (.union [tT, .ref ("PromiseLike") [tT]])]
        (.ref ("Promise") [tT]),
       .method false ("reject") [.tparam ("T") none (some .neverT)]
        [.param ("reason") true false .anyT]
        (.ref ("Promise") [tT]),
       .method false ("all") [.tparam ("T") none none]
        [.param ("values") false false (.arrTy true (.union [tT, .ref ("PromiseLike") [tT]]))]
        (.ref ("Promise") [.arrTy false tT])],
    .constDecl ("Promise") (.ref ("PromiseConstructor") []),
    .iface ("Iterator")
      [.tparam ("T") none none, .tparam ("TReturn") none (some .anyT),
       .tparam ("TNext") none (some .undefinedT)] []
      [.method false ("next") []
        [.param ("args") false true (.union [.tupleTy [], .tupleTy [tTNext]])]
        (.ref ("IteratorResult") [tT, tTReturn]),
       .method true ("return") [] [.param ("value") true false tTReturn]
        (.ref ("IteratorResult") [tT, tTReturn]),
       .method true ("throw") [] [.param ("e") true false .anyT]
        (.ref ("IteratorResult") [tT, tTReturn])],
    .iface ("IteratorResult")
      [.tparam ("T") none none, .tparam ("TReturn") none (some .anyT)] []
      [.field false false ("done") .booleanT,
       .field false false ("value") (.union [tT, tTReturn])],
    .iface ("IteratorYieldResult") [.tparam ("T") none none] []
      [.field false false ("done") .litFalse,
       .field false false ("value") tT],
    .iface ("IteratorReturnResult") [.tparam ("TReturn") none none] []
      [.field false false ("done") .litTrue,
       .field false false ("value") tTReturn],
    .iface ("Iterable") [.tparam ("T") none none] []
      [.wkMethod ("iterator") (.ref ("Iterator") [tT])],
    .iface ("IterableIterator") [.tparam ("T") none none] [.ref ("Iterator") [tT]]
      [.wkMethod ("iterator") (.ref ("IterableIterator") [tT])],
    .iface ("AsyncIterator")
      [.tparam ("T") none none, .tparam ("TReturn") none (some .anyT),
       .tparam ("TNext") none (some .undefinedT)] []
      [.method false ("next") []
        [.param ("args") false true (.union [.tupleTy [], .tupleTy [tTNext]])]
        (.ref ("Promise") [.ref ("IteratorResult") [tT, tTReturn]]),
       .method true ("return") []
        [.param ("value") true false (.union [tTReturn, .ref ("PromiseLike") [tTReturn]])]
        (.ref ("Promise") [.ref ("IteratorResult") [tT, tTReturn]]),
       .method true ("throw") [] [.param ("e") true false .anyT]
        (.ref ("Promise") [.ref ("IteratorResult") [tT, tTReturn]])],
    .iface ("AsyncIterable") [.tparam ("T") none none] []
      [.wkMethod ("asyncIterator") (.ref ("AsyncIterator") [tT])],
    .iface ("AsyncIterableIterator") [.tparam ("T") none none] [.ref ("AsyncIterator") [tT]]
      [.wkMethod ("asyncIterator") (.ref ("AsyncIterableIterator") [tT])],
    .iface ("Generator")
      [.tparam ("T") none (some .unknownT), .tparam ("TReturn") none (some .anyT),
       .tparam ("TNext") none (some .unknownT)]
      [.ref ("Iterator") [tT, tTReturn, tTNext]]
      [.method false ("next") []
        [.param ("args") false true (.union [.tupleTy [], .tupleTy [tTNext]])]
        (.ref ("IteratorResult") [tT, tTReturn]),
       .method false ("return") [] [.param ("value") false false tTReturn]
        (.ref ("IteratorResult") [tT, tTReturn]),
       .method false ("throw") [] [.param ("e") false false .anyT]
        (.ref ("IteratorResult") [tT, tTReturn]),
       .wkMethod ("iterator") (.ref ("Generator") [tT, tTReturn, tTNext])],
    .iface ("AsyncGenerator")
      [.tparam ("T") none (some .unknownT), .tparam ("TReturn") none (some .anyT),
       .tparam ("TNext") none (some .unknownT)]
      [.ref ("AsyncIterator") [tT, tTReturn, tTNext]]
      [.method false ("next") []
        [.param ("args") false true (.union [.tupleTy [], .tupleTy [tTNext]])]
        (.ref ("Promise") [.ref ("IteratorResult") [tT, tTReturn]]),
       .method false ("return") []
        [.param ("value") false false (.union [tTReturn, .ref ("PromiseLike") [tTReturn]])]
        (.ref ("Promise") [.ref ("IteratorResult") [tT, tTReturn]]),
       .method false ("throw") [] [.param ("e") false false .anyT]
        (.ref ("Promise") [.ref ("IteratorResult") [tT, tTReturn]]),
       .wkMethod ("asyncIterator") (.ref ("AsyncGenerator") [tT, tTReturn, tTNext])],
    .tyAlias ("Uppercase") [.tparam ("S") (some .stringT) none] .intrinsicT,
    .tyAlias ("Lowercase") [.tparam ("S") (some .stringT) none] .intrinsicT,
    .tyAlias ("Capitalize") [.tparam ("S") (some .stringT) none] .intrinsicT,
    .tyAlias ("Uncapitalize") [.tparam ("S") (some .stringT) none] .intrinsicT]

/-- The typed-index variant of `src/index.d.ts` (the variant beginning with
`import { int } from "@tsonic/types"`): every global declaration in source
order.  `Array<T>` and `ReadonlyArray<T>` index with the imported `int`
type; `SymbolConstructor` exposes only `iterator`; only the minimal
iterator family (`Iterator`, `IteratorResult`, `Iterable`,
`IterableIterator`) is declared, with no async or generator interfaces. -/
def typedVariant : Variant where
  imports := [(("int"), ("@tsonic/types"))]
  decls := [
    .iface ("Array") [.tparam ("T") none none] []
      [.idxSig false ("n") (.ref ("int") []) tT],
    .iface ("ReadonlyArray") [.tparam ("T") none none] []
      [.idxSig true ("n") (.ref ("int") []) tT],
    .iface ("String") [] [] [],
    .iface ("Number") [] [] [],
    .iface ("Boolean") [] [] [],
    .iface ("Object") [] []
      [.field false false ("constructor") (.ref ("Function") [])],
    .iface ("Function") [] []
      [.field false false ("prototype") .anyT],
    .iface ("CallableFunction") [] [.ref ("Function") []] [],
    .iface ("NewableFunction") [] [.ref ("Function") []] [],
    .iface ("IArguments") [] [] [],
    .iface ("RegExp") [] [] [],
    .iface ("SymbolConstructor") [] []
      [.field true false ("iterator") .symbolT],
    .constDecl ("Symbol") (.ref ("SymbolConstructor") []),
    .tyAlias ("PropertyKey") [] (.union [.stringT, .numberT, .symbolT]),
    .tyAlias ("Partial") [.tparam ("T") none none]
      (.mapped ("P") (.keyofT tT) .addOpt (.idxAcc tT tP)),
    .tyAlias ("Required") [.tparam ("T") none none]
      (.mapped ("P") (.keyofT tT) .subOpt (.idxAcc tT tP)),
    .tyAlias ("Readonly") [.tparam ("T") none none]
      (.mapped ("P") (.keyofT tT) .addRo (.idxAcc tT tP)),
    .tyAlias ("Pick") [.tparam ("T") none none, .tparam ("K") (some (.keyofT tT)) none]
      (.mapped ("P") tK .plain (.idxAcc tT tP)),
    .tyAlias ("Record") [.tparam ("K") (some (.keyofT .anyT)) none, .tparam ("T") none none]
      (.mapped ("P") tK .plain tT),
    .tyAlias ("Exclude") [.tparam ("T") none none, .tparam ("U") none none]
      (.condTy tT tU .neverT tT),
    .tyAlias ("Extract") [.tparam ("T") none none, .tparam ("U") none none]
      (.condTy tT tU tT .neverT),
    .tyAlias ("Omit") [.tparam ("T") none none, .tparam ("K") (some (.keyofT .anyT)) none]
      (.ref ("Pick") [tT, .ref ("Exclude") [.keyofT tT, tK]]),
    .tyAlias ("NonNullable") [.tparam ("T") none none]
      (.condTy tT (.union [.nullT, .undefinedT]) .neverT tT),
    .tyAlias ("Parameters")
      [.tparam ("T") (some (.fnTy [.param ("args") false true .anyT] .anyT)) none]
      (.condTy tT (.fnTy [.param ("args") false true (.inferT ("P"))] .anyT) tP .neverT),
    .tyAlias ("ReturnType")
      [.tparam ("T") (some (.fnTy [.param ("args") false true .anyT] .anyT)) none]
      (.condTy tT (.fnTy [.param ("args") false true .anyT] (.inferT ("R"))) tR .anyT),
    .tyAlias ("InstanceType")
      [.tparam ("T") (some (.ctorTy [.param ("args") false true .anyT] .anyT)) none]
      (.condTy tT (.ctorTy [.param ("args") false true .anyT] (.inferT ("R"))) tR .anyT),
    .iface ("Promise") [.tparam ("T") none none] []
      [.method false ("then")
        [.tparam ("TResult1") none (some tT), .tparam ("TResult2") none (some .neverT)]
        [.param ("onfulfilled") true false
          (.union [.fnTy [.param ("value") false false tT]
                     (.union [tTResult1, .ref ("PromiseLike") [tTResult1]]),
                   .undefinedT, .nullT]),
         .param ("onrejected") true false
          (.union [.fnTy [.param ("reason") false false .anyT]
                     (.union [tTResult2, .ref ("PromiseLike") [tTResult2]]),
                   .undefinedT, .nullT])]
        (.ref ("Promise") [.union [tTResult1, tTResult2]]),
       .method false ("catch")
        [.tparam ("TResult") none (some .neverT)]
        [.param ("onrejected") true false
          (.union [.fnTy [.param ("reason") false false .anyT]
                     (.union [tTResult, .ref ("PromiseLike") [tTResult]]),
                   .undefinedT, .nullT])]
        (.ref ("Promise") [.union [tT, tTResult]])],
    .iface ("PromiseLike") [.tparam ("T") none none] []
      [.method false ("then")
        [.tparam ("TResult1") none (some tT), .tparam ("TResult2") none (some .neverT)]
        [.param ("onfulfilled") true false
          (.union [.fnTy [.param ("value") false false tT]
                     (.union [tTResult1, .ref ("PromiseLike") [tTResult1]]),
                   .undefinedT, .nullT]),
         .param ("onrejected") true false
          (.union [.fnTy [.param ("reason") false false .anyT]
                     (.union [tTResult2, .ref ("PromiseLike") [tTResult2]]),
                   .undefinedT, .nullT])]
        (.ref ("PromiseLike") [.union [tTResult1, tTResult2]])],
    .iface ("PromiseConstructor") [] []
      [.ctorSig [.tparam ("T") none none]
        [.param ("executor") false false
          (.fnTy [.param ("resolve") false false
                    (.fnTy [.param ("value") false false
                              (.union [tT, .ref ("PromiseLike") [tT]])] .voidT),
                  .param ("reject") false false
                    (.fnTy [.param ("reason") true false .anyT] .voidT)]
            .voidT)]
        (.ref ("Promise") [tT]),
       .method false ("resolve") [.tparam ("T") none none]
        [.param ("value") false false (.union [tT, .ref ("PromiseLike") [tT]])]
        (.ref ("Promise") [tT]),
       .method false ("reject") [.tparam ("T") none (some .neverT)]
        [.param ("reason") true false .anyT]
        (.ref ("Promise") [tT]),
       .method false ("all") [.tparam ("T") none none]
        [.param ("values") false false (.arrTy true (.union [tT, .ref ("PromiseLike") [tT]]))]
        (.ref ("Promise") [.arrTy false tT])],
    .constDecl ("Promise") (.ref ("PromiseConstructor") []),
    .iface ("Iterator") [.tparam ("T") none none] []
      [.method false ("next") [] [] (.ref ("IteratorResult") [tT])],
    .iface ("IteratorResult") [.tparam ("T") none none] []
      [.field false false ("done") .booleanT,
       .field false false ("value") tT],
    .iface ("Iterable") [.tparam ("T") none none] []
      [.wkMethod ("iterator") (.ref ("Iterator") [tT])],
    .iface ("IterableIterator") [.tparam ("T") none none] [.ref ("Iterator") [tT]]
      [.wkMethod ("iterator") (.ref ("IterableIterator") [tT])],
    .tyAlias ("Uppercase") [.tparam ("S") (some .stringT) none] .intrinsicT,
    .tyAlias ("Lowercase") [.tparam ("S") (some .stringT) none] .intrinsicT,
    .tyAlias ("Capitalize") [.tparam ("S") (some .stringT) none] .intrinsicT,
    .tyAlias ("Uncapitalize") [.tparam ("S") (some .stringT) none] .intrinsicT]

/-! Query functions over the embedded declaration lists. -/

/-- Name introduced by a declaration. -/
def Decl.declName : Decl → String
  | .iface n _ _ _ => n
  | .tyAlias n _ _ => n
  | .constDecl n _ => n

/-- Look up the declaration of a global name in a variant. -/
def lookupDecl (v : Variant) (n : String) : Option Decl :=
  v.decls.find? (fun d => d.declName == n)

/-- Whether a variant declares a given global name at all. -/
def declaresName (v : Variant) (n : String) : Bool :=
  (lookupDecl v n).isSome

/-- Member list of the interface declared under a name (empty if the name
is not declared as an interface). -/
def membersOf (v : Variant) (n : String) : List Member :=
  match lookupDecl v n with
  | some (.iface _ _ _ ms) => ms
  | _ => []

/-- Extends clause of the interface declared under a name. -/
def parentsOf (v : Variant) (n : String) : List Ty :=
  match lookupDecl v n with
  | some (.iface _ _ ps _) => ps
  | _ => []

/-- Body of the type alias declared under a name. -/
def aliasBody (v : Variant) (n : String) : Option Ty :=
  match lookupDecl v n with
  | some (.tyAlias _ _ b) => some b
  | _ => none

/-- Display label of a member: the property or method name, a bracketed tag
for index and construct signatures, and the well-known-symbol name for
computed members. -/
def Member.label : Member → String
  | .idxSig _ _ _ _ => "[index]"
  | .field _ _ n _ => n
  | .method _ n _ _ _ => n
  | .wkMethod s _ => "[Symbol]" ++ s
  | .ctorSig _ _ _ => "[new]"

/-- Labels of all members of an interface, in declaration order. -/
def memberLabels (v : Variant) (n : String) : List String :=
  (membersOf v n).map Member.label

/-- Whether a member is an index signature. -/
def Member.isIdxSig : Member → Bool
  | .idxSig _ _ _ _ => true
  | _ => false

/-- Whether a member list contains a property or named method called `n`
(index signatures, construct signatures and well-known-symbol members have
no property name and never match). -/
def hasMemberNamed (ms : List Member) (n : String) : Bool :=
  ms.any fun m =>
    match m with
    | .field _ _ x _ => x == n
    | .method _ x _ _ _ => x == n
    | _ => false

/-- Whether a member list contains the computed member `[Symbol.s]`. -/
def hasWkMethod (ms : List Member) (s : String) : Bool :=
  ms.any fun m =>
    match m with
    | .wkMethod x _ => x == s
    | _ => false

/-- Key types of all index signatures in a member list. -/
def idxKeys (ms : List Member) : List Ty :=
  ms.filterMap fun m =>
    match m with
    | .idxSig _ _ k _ => some k
    | _ => none

/-- Head name of a type expression, used to compare index-signature key
types by name: keyword types print their keyword, references their
referenced name. -/
def Ty.headName : Ty → String
  | .ref n _ => n
  | .numberT => "number"
  | .stringT => "string"
  | .symbolT => "symbol"
  | .booleanT => "boolean"
  | _ => "?"

/-- Key-type names of all index signatures in a member list. -/
def idxKeyNames (ms : List Member) : List String :=
  (idxKeys ms).map Ty.headName

/-- Declared type of the property named `n`, if present. -/
def fieldTy (ms : List Member) (n : String) : Option Ty :=
  ms.findSome? fun m =>
    match m with
    | .field _ _ x t => if x == n then some t else none
    | _ => none

/-- Return type of the named method `n`, if present. -/
def methodRet (ms : List Member) (n : String) : Option Ty :=
  ms.findSome? fun m =>
    match m with
    | .method _ x _ _ r => if x == n then some r else none
    | _ => none

/-- A member list consists of index signatures and at most the
`[Symbol.iterator]` computed member — the only surface the spec allows
`Array<T>`/`ReadonlyArray<T>` to declare. -/
def onlyIndexAndIteration (ms : List Member) : Bool :=
  ms.all fun m =>
    match m with
    | .idxSig _ _ _ _ => true
    | .wkMethod s _ => s == "iterator"
    | _ => false

/-- A variant supports `for-of` when it declares the structural iteration
protocol the host compiler checks `for-of` against: the `Iterator` and
`Iterable` interfaces, with `Iterable` exposing the `[Symbol.iterator]`
member. -/
def supportsForOf (v : Variant) : Bool :=
  declaresName v ("Iterator") && declaresName v ("Iterable")
    && hasWkMethod (membersOf v ("Iterable")) ("iterator")

/-- Whether a variant is declared under a name as an interface. -/
def isIface (v : Variant) (n : String) : Bool :=
  match lookupDecl v n with
  | some (.iface _ _ _ _) => true
  | _ => false

/-- Whether a variant declares the async-iteration family, i.e. the
interfaces the fuller variant adds for `for-await-of` and async
generators. -/
def declaresAsyncFamily (v : Variant) : Bool :=
  declaresName v ("AsyncIterator") && declaresName v ("AsyncIterable")
    && declaresName v ("AsyncIterableIterator") && declaresName v ("AsyncGenerator")

/-- Whether the declaration of `IteratorResult` in a variant has the
discriminated `done`/`value` shape, i.e. whether it is declared as a union
type (as in the standard library, where `IteratorResult<T, TReturn>` is the
alias `IteratorYieldResult<T> | IteratorReturnResult<TReturn>`).  An
interface declaration gives the name a single object shape, whose lone
`done` member cannot pair `done: false` with `value: T` and `done: true`
with `value: TReturn` at the same time. -/
def iteratorResultDiscriminated (v : Variant) : Bool :=
  match lookupDecl v ("IteratorResult") with
  | some (.tyAlias _ _ (.union _)) => true
  | _ => false

/-- Global names at the three intended points of divergence between the two
variants: the array types (index-signature key), `SymbolConstructor`
(member set), and the iterator/generator family. -/
def divergentNames : List String :=
  [("Array"), ("ReadonlyArray"), ("SymbolConstructor"),
   ("Iterator"), ("IteratorResult"), ("IteratorYieldResult"), ("IteratorReturnResult"),
   ("Iterable"), ("IterableIterator"),
   ("AsyncIterator"), ("AsyncIterable"), ("AsyncIterableIterator"),
   ("Generator"), ("AsyncGenerator")]

/-- Declarations of a variant outside the intended divergence points, in
source order. -/
def outsideDivergence (v : Variant) : List Decl :=
  v.decls.filter (fun d => !(divergentNames.contains d.declName))

/-! Evaluation of the utility type aliases on concrete object types,
following the host compiler mapped-type and conditional-type semantics that
the alias bodies embedded above rely on. -/

/-- One named member of a concrete object type: name, optionality,
readonly-ness and member type. -/
structure Field where
  name : String
  opt : Bool
  ro : Bool
  ty : Ty

/-- A concrete object type: its named members in declaration order. -/
abbrev ObjTy := List Field

/-- Evaluation of `keyof T` on a concrete object type: the union of the
literal key types, represented as the key list in declaration order. -/
def keysOf (o : ObjTy) : List String := o.map Field.name

/-- Member of an object type under a given key, if any. -/
def lookupField (o : ObjTy) (k : String) : Option Field :=
  o.find? (fun f => f.name == k)

/-- Evaluation of a homomorphic mapped type over a key list of `T` on a
concrete object type: iterate the keys in order, take the member `T[P]`
with its own `optional`/`readonly` modifiers (homomorphic mapped types
copy them), then apply the modifier of the mapped type itself. -/
def mapOverKeys (m : MapMod) (o : ObjTy) (ks : List String) : ObjTy :=
  ks.filterMap fun k =>
    (lookupField o k).map fun f =>
      match m with
      | .plain => f
      | .addOpt => { f with opt := true }
      | .subOpt => { f with opt := false }
      | .addRo => { f with ro := true }

/-- Evaluation of `Partial<T>`, whose embedded body is the mapped type over
`keyof T` that adds the `?` modifier to each member `T[P]`. -/
def partialObj (o : ObjTy) : ObjTy := mapOverKeys .addOpt o (keysOf o)

/-- Evaluation of `Pick<T, K>`, whose embedded body is the plain mapped
type over `K`, for `K` a union of literal key types given as a key list. -/
def pickObj (o : ObjTy) (ks : List String) : ObjTy := mapOverKeys .plain o ks

/-- Evaluation of `Exclude<T, U>`, whose embedded body is the distributive
conditional `T extends U ? never : T`, on unions of literal key types: the
conditional distributes over the members of `T` and keeps those not
assignable to `U`. -/
def excludeKeys (t u : List String) : List String :=
  t.filter (fun k => !(u.contains k))

/-- Evaluation of `Omit<T, K>`, whose embedded body is
`Pick<T, Exclude<keyof T, K>>`. -/
def omitObj (o : ObjTy) (ks : List String) : ObjTy :=
  pickObj o (excludeKeys (keysOf o) ks)

/-- The concrete object type `{ a: number }`. -/
def objA : ObjTy := [{ name := ("a"), opt := false, ro := false, ty := .numberT }]

/-- The concrete object type `{ a: 1, b: 2 }`. -/
def objAB : ObjTy :=
  [{ name := ("a"), opt := false, ro := false, ty := .litNat 1 },
   { name := ("b"), opt := false, ro := false, ty := .litNat 2 }]

/-! Theorems settling the spec claims. -/

/-- Claim C1: in every shipped variant, the declarations of `Array<T>` and
`ReadonlyArray<T>` contain no `length` member and no higher-order method
member (`map`, `filter`, `reduce`, `slice`, ...): the only member each of
the four interfaces declares is its index signature, so in particular every
member passes the only-index-and-iteration filter and none of the JS array
member names occurs. -/
theorem array_surface_minimal :
    membersOf plainVariant ("Array") = [.idxSig false ("n") .numberT tT] ∧
    membersOf plainVariant ("ReadonlyArray") = [.idxSig true ("n") .numberT tT] ∧
    membersOf typedVariant ("Array") = [.idxSig false ("n") (.ref ("int") []) tT] ∧
    membersOf typedVariant ("ReadonlyArray") = [.idxSig true ("n") (.ref ("int") []) tT] ∧
    onlyIndexAndIteration (membersOf plainVariant ("Array")) = true ∧
    onlyIndexAndIteration (membersOf plainVariant ("ReadonlyArray")) = true ∧
    onlyIndexAndIteration (membersOf typedVariant ("Array")) = true ∧
    onlyIndexAndIteration (membersOf typedVariant ("ReadonlyArray")) = true ∧
    ([("length"), ("map"), ("filter"), ("reduce"), ("slice"), ("forEach"),
      ("indexOf"), ("concat"), ("join"), ("push"), ("pop")].all
      (fun s => !(hasMemberNamed (membersOf plainVariant ("Array")) s
        || hasMemberNamed (membersOf plainVariant ("ReadonlyArray")) s
        || hasMemberNamed (membersOf typedVariant ("Array")) s
        || hasMemberNamed (membersOf typedVariant ("ReadonlyArray")) s))) = true :=
  ⟨rfl, rfl, rfl, rfl, rfl, rfl, rfl, rfl, rfl⟩

/-- Claim C2 counterexample: both variants support `for-of` in the
structural sense (each declares `Iterator` and an `Iterable` interface
exposing `[Symbol.iterator]`), yet in neither variant does the `Array<T>`
declaration contain the iteration-protocol member: its member list is the
index signature alone. -/
theorem array_lacks_iteration_member :
    supportsForOf plainVariant = true ∧
    hasWkMethod (membersOf plainVariant ("Array")) ("iterator") = false ∧
    memberLabels plainVariant ("Array") = [("[index]")] ∧
    supportsForOf typedVariant = true ∧
    hasWkMethod (membersOf typedVariant ("Array")) ("iterator") = false ∧
    memberLabels typedVariant ("Array") = [("[index]")] :=
  ⟨rfl, rfl, rfl, rfl, rfl, rfl⟩

/-- Claim C2 as amended: both variants declare the structural iteration
protocol used by `for-of`, but neither declares the iteration-protocol
member on `Array<T>` itself; every `Array` member is the index signature,
and the `[Symbol.iterator]` member is carried by the separate `Iterable`
and `IterableIterator` interfaces instead. -/
theorem iteration_protocol_on_iterable :
    supportsForOf plainVariant = true ∧
    supportsForOf typedVariant = true ∧
    (membersOf plainVariant ("Array")).all Member.isIdxSig = true ∧
    (membersOf typedVariant ("Array")).all Member.isIdxSig = true ∧
    hasWkMethod (membersOf plainVariant ("Iterable")) ("iterator") = true ∧
    hasWkMethod (membersOf typedVariant ("Iterable")) ("iterator") = true ∧
    hasWkMethod (membersOf plainVariant ("IterableIterator")) ("iterator") = true ∧
    hasWkMethod (membersOf typedVariant ("IterableIterator")) ("iterator") = true :=
  ⟨rfl, rfl, rfl, rfl, rfl, rfl, rfl, rfl⟩

/-- Claim C4: within each variant, every index signature declared on
`Array<T>` and `ReadonlyArray<T>` uses one and the same key type — the
`number` keyword type in the plain-index variant, and the `int` type in the
typed-index variant, which that variant imports from `@tsonic/types`. -/
theorem index_key_consistent :
    idxKeys (membersOf plainVariant ("Array")) = [.numberT] ∧
    idxKeys (membersOf plainVariant ("ReadonlyArray")) = [.numberT] ∧
    idxKeys (membersOf typedVariant ("Array")) = [.ref ("int") []] ∧
    idxKeys (membersOf typedVariant ("ReadonlyArray")) = [.ref ("int") []] ∧
    plainVariant.imports = [] ∧
    typedVariant.imports = [(("int"), ("@tsonic/types"))] :=
  ⟨rfl, rfl, rfl, rfl, rfl, rfl⟩

/-- Claim C3: under the utility-alias definitions — embedded in both
variants as the mapped type adding `?` over `keyof T` for `Partial`, the
plain mapped type over `K` for `Pick`, and `Pick<T, Exclude<keyof T, K>>`
for `Omit` — evaluation on concrete object types gives
`Partial<{a: number}> = {a?: number}`, `Pick<{a: 1, b: 2}, "a"> = {a: 1}`
and `Omit<{a: 1, b: 2}, "a"> = {b: 2}`, as equalities of the full member
lists, i.e. exact structural equivalence and not merely mutual
assignability. -/
theorem utility_aliases_reduce :
    aliasBody plainVariant ("Partial")
      = some (.mapped ("P") (.keyofT tT) .addOpt (.idxAcc tT tP)) ∧
    aliasBody typedVariant ("Partial")
      = some (.mapped ("P") (.keyofT tT) .addOpt (.idxAcc tT tP)) ∧
    aliasBody plainVariant ("Pick")
      = some (.mapped ("P") tK .plain (.idxAcc tT tP)) ∧
    aliasBody typedVariant ("Pick")
      = some (.mapped ("P") tK .plain (.idxAcc tT tP)) ∧
    aliasBody plainVariant ("Omit")
      = some (.ref ("Pick") [tT, .ref ("Exclude") [.keyofT tT, tK]]) ∧
    aliasBody typedVariant ("Omit")
      = some (.ref ("Pick") [tT, .ref ("Exclude") [.keyofT tT, tK]]) ∧
    aliasBody plainVariant ("Exclude") = some (.condTy tT tU .neverT tT) ∧
    aliasBody typedVariant ("Exclude") = some (.condTy tT tU .neverT tT) ∧
    partialObj objA = [{ name := ("a"), opt := true, ro := false, ty := .numberT }] ∧
    pickObj objAB [("a")] = [{ name := ("a"), opt := false, ro := false, ty := .litNat 1 }] ∧
    omitObj objAB [("a")] = [{ name := ("b"), opt := false, ro := false, ty := .litNat 2 }] :=
  ⟨rfl, rfl, rfl, rfl, rfl, rfl, rfl, rfl, rfl, rfl, rfl⟩

/-- Claim C5 counterexample: in neither variant does the declaration of
`IteratorResult` have the `done`/`value` discriminant shape.  It is not a
union declaration; it is an interface whose `done` member has the plain
type `boolean` (not the literal `false` or `true`) and whose `value` member
has the undiscriminated type `T | TReturn` in the fuller variant and plain
`T` in the simpler variant — so the declared shape never pairs
`done: false` with `value: T` nor `done: true` with `value: TReturn`.  The
simpler variant moreover declares no `IteratorYieldResult` or
`IteratorReturnResult` at all, and its `IteratorResult` has no `TReturn`
parameter to discriminate on. -/
theorem iterator_result_not_discriminated :
    iteratorResultDiscriminated plainVariant = false ∧
    iteratorResultDiscriminated typedVariant = false ∧
    fieldTy (membersOf plainVariant ("IteratorResult")) ("done") = some .booleanT ∧
    fieldTy (membersOf plainVariant ("IteratorResult")) ("value")
      = some (.union [tT, tTReturn]) ∧
    fieldTy (membersOf typedVariant ("IteratorResult")) ("done") = some .booleanT ∧
    fieldTy (membersOf typedVariant ("IteratorResult")) ("value") = some tT ∧
    declaresName typedVariant ("IteratorYieldResult") = false ∧
    declaresName typedVariant ("IteratorReturnResult") = false :=
  ⟨rfl, rfl, rfl, rfl, rfl, rfl, rfl, rfl⟩

/-- Claim C5 as amended: in each variant the Iterator family has the
structural member shape used by `for-of` — `Iterator.next` returns
`IteratorResult`, `Iterable` and `IterableIterator` expose
`[Symbol.iterator]` — and the fuller variant additionally gives
`AsyncIterator`, `AsyncIterable`, `Generator` and `AsyncGenerator` their
`for-await-of`/generator member shapes; however, `IteratorResult` is
declared with `done: boolean` and an undiscriminated `value` (`T | TReturn`
in the fuller variant, `T` in the simpler one), and the discriminated
`done: false`/`value: T` and `done: true`/`value: TReturn` shapes occur
only in the fuller variant as the standalone `IteratorYieldResult` and
`IteratorReturnResult` interfaces, which the `IteratorResult` declaration
does not reference. -/
theorem iterator_family_shape :
    methodRet (membersOf plainVariant ("Iterator")) ("next")
      = some (.ref ("IteratorResult") [tT, tTReturn]) ∧
    methodRet (membersOf typedVariant ("Iterator")) ("next")
      = some (.ref ("IteratorResult") [tT]) ∧
    memberLabels plainVariant ("Iterator") = [("next"), ("return"), ("throw")] ∧
    memberLabels typedVariant ("Iterator") = [("next")] ∧
    membersOf plainVariant ("Iterable") = [.wkMethod ("iterator") (.ref ("Iterator") [tT])] ∧
    membersOf typedVariant ("Iterable") = [.wkMethod ("iterator") (.ref ("Iterator") [tT])] ∧
    parentsOf plainVariant ("IterableIterator") = [.ref ("Iterator") [tT]] ∧
    parentsOf typedVariant ("IterableIterator") = [.ref ("Iterator") [tT]] ∧
    membersOf plainVariant ("IterableIterator")
      = [.wkMethod ("iterator") (.ref ("IterableIterator") [tT])] ∧
    membersOf typedVariant ("IterableIterator")
      = [.wkMethod ("iterator") (.ref ("IterableIterator") [tT])] ∧
    fieldTy (membersOf plainVariant ("IteratorResult")) ("done") = some .booleanT ∧
    fieldTy (membersOf plainVariant ("IteratorResult")) ("value")
      = some (.union [tT, tTReturn]) ∧
    fieldTy (membersOf typedVariant ("IteratorResult")) ("done") = some .booleanT ∧
    fieldTy (membersOf typedVariant ("IteratorResult")) ("value") = some tT ∧
    fieldTy (membersOf plainVariant ("IteratorYieldResult")) ("done") = some .litFalse ∧
    fieldTy (membersOf plainVariant ("IteratorYieldResult")) ("value") = some tT ∧
    fieldTy (membersOf plainVariant ("IteratorReturnResult")) ("done") = some .litTrue ∧
    fieldTy (membersOf plainVariant ("IteratorReturnResult")) ("value") = some tTReturn ∧
    methodRet (membersOf plainVariant ("AsyncIterator")) ("next")
      = some (.ref ("Promise") [.ref ("IteratorResult") [tT, tTReturn]]) ∧
    membersOf plainVariant ("AsyncIterable")
      = [.wkMethod ("asyncIterator") (.ref ("AsyncIterator") [tT])] ∧
    parentsOf plainVariant ("Generator") = [.ref ("Iterator") [tT, tTReturn, tTNext]] ∧
    memberLabels plainVariant ("Generator")
      = [("next"), ("return"), ("throw"), ("[Symbol]iterator")] ∧
    methodRet (membersOf plainVariant ("Generator")) ("next")
      = some (.ref ("IteratorResult") [tT, tTReturn]) ∧
    parentsOf plainVariant ("AsyncGenerator") = [.ref ("AsyncIterator") [tT, tTReturn, tTNext]] ∧
    memberLabels plainVariant ("AsyncGenerator")
      = [("next"), ("return"), ("throw"), ("[Symbol]asyncIterator")] ∧
    methodRet (membersOf plainVariant ("AsyncGenerator")) ("next")
      = some (.ref ("Promise") [.ref ("IteratorResult") [tT, tTReturn]]) :=
  ⟨rfl, rfl, rfl, rfl, rfl, rfl, rfl, rfl, rfl, rfl, rfl, rfl, rfl,
   rfl, rfl, rfl, rfl, rfl, rfl, rfl, rfl, rfl, rfl, rfl, rfl, rfl⟩

/-- Claim C6: `SymbolConstructor` exposes exactly the well-known symbols
needed for the iteration protocols each variant supports — `readonly
iterator: symbol` in both variants, plus `readonly asyncIterator: symbol`
only in the plain-index variant, which is also exactly the variant that
declares the async-iteration family — and no other member. -/
theorem symbol_constructor_members :
    membersOf plainVariant ("SymbolConstructor")
      = [.field true false ("iterator") .symbolT,
         .field true false ("asyncIterator") .symbolT] ∧
    membersOf typedVariant ("SymbolConstructor")
      = [.field true false ("iterator") .symbolT] ∧
    declaresAsyncFamily plainVariant = true ∧
    declaresAsyncFamily typedVariant = false :=
  ⟨rfl, rfl, rfl, rfl⟩

/-- Claim C7: in both variants, `Promise<T>` declares exactly `then` and
`catch`, `PromiseLike<T>` exactly `then`, and `PromiseConstructor` exactly
a construct signature plus the statics `resolve`, `reject` and `all`, with
the `PromiseLike`-chaining signatures: `then` returns
`Promise<TResult1 | TResult2>` (`PromiseLike<TResult1 | TResult2>` on
`PromiseLike`), `catch` returns `Promise<T | TResult>`, and the statics
return `Promise<T>` (`Promise<T[]>` for `all`). -/
theorem promise_surface :
    memberLabels plainVariant ("Promise") = [("then"), ("catch")] ∧
    memberLabels typedVariant ("Promise") = [("then"), ("catch")] ∧
    memberLabels plainVariant ("PromiseLike") = [("then")] ∧
    memberLabels typedVariant ("PromiseLike") = [("then")] ∧
    memberLabels plainVariant ("PromiseConstructor")
      = [("[new]"), ("resolve"), ("reject"), ("all")] ∧
    memberLabels typedVariant ("PromiseConstructor")
      = [("[new]"), ("resolve"), ("reject"), ("all")] ∧
    methodRet (membersOf plainVariant ("Promise")) ("then")
      = some (.ref ("Promise") [.union [tTResult1, tTResult2]]) ∧
    methodRet (membersOf typedVariant ("Promise")) ("then")
      = some (.ref ("Promise") [.union [tTResult1, tTResult2]]) ∧
    methodRet (membersOf plainVariant ("Promise")) ("catch")
      = some (.ref ("Promise") [.union [tT, tTResult]]) ∧
    methodRet (membersOf typedVariant ("Promise")) ("catch")
      = some (.ref ("Promise") [.union [tT, tTResult]]) ∧
    methodRet (membersOf plainVariant ("PromiseLike")) ("then")
      = some (.ref ("PromiseLike") [.union [tTResult1, tTResult2]]) ∧
    methodRet (membersOf typedVariant ("PromiseLike")) ("then")
      = some (.ref ("PromiseLike") [.union [tTResult1, tTResult2]]) ∧
    methodRet (membersOf plainVariant ("PromiseConstructor")) ("resolve")
      = some (.ref ("Promise") [tT]) ∧
    methodRet (membersOf typedVariant ("PromiseConstructor")) ("resolve")
      = some (.ref ("Promise") [tT]) ∧
    methodRet (membersOf plainVariant ("PromiseConstructor")) ("reject")
      = some (.ref ("Promise") [tT]) ∧
    methodRet (membersOf typedVariant ("PromiseConstructor")) ("reject")
      = some (.ref ("Promise") [tT]) ∧
    methodRet (membersOf plainVariant ("PromiseConstructor")) ("all")
      = some (.ref ("Promise") [.arrTy false tT]) ∧
    methodRet (membersOf typedVariant ("PromiseConstructor")) ("all")
      = some (.ref ("Promise") [.arrTy false tT]) :=
  ⟨rfl, rfl, rfl, rfl, rfl, rfl, rfl, rfl, rfl, rfl, rfl, rfl, rfl, rfl, rfl, rfl, rfl, rfl⟩

/-- Claim C8: in both variants, the global `Object` interface declares
exactly one member, `constructor: Function`, and the global `Function`
interface declares exactly one member, `prototype: any`. -/
theorem object_function_members :
    membersOf plainVariant ("Object")
      = [.field false false ("constructor") (.ref ("Function") [])] ∧
    membersOf typedVariant ("Object")
      = [.field false false ("constructor") (.ref ("Function") [])] ∧
    membersOf plainVariant ("Function") = [.field false false ("prototype") .anyT] ∧
    membersOf typedVariant ("Function") = [.field false false ("prototype") .anyT] :=
  ⟨rfl, rfl, rfl, rfl⟩

/-- Claim C9: in both variants, the global interfaces `String`, `Number`
and `Boolean` are declared (as interfaces) with empty member lists. -/
theorem primitive_shells_empty :
    isIface plainVariant ("String") = true ∧
    isIface plainVariant ("Number") = true ∧
    isIface plainVariant ("Boolean") = true ∧
    isIface typedVariant ("String") = true ∧
    isIface typedVariant ("Number") = true ∧
    isIface typedVariant ("Boolean") = true ∧
    membersOf plainVariant ("String") = [] ∧
    membersOf plainVariant ("Number") = [] ∧
    membersOf plainVariant ("Boolean") = [] ∧
    membersOf typedVariant ("String") = [] ∧
    membersOf typedVariant ("Number") = [] ∧
    membersOf typedVariant ("Boolean") = [] :=
  ⟨rfl, rfl, rfl, rfl, rfl, rfl, rfl, rfl, rfl, rfl, rfl, rfl⟩

/-- Claim C10: the two variants declare every global name they share
outside the intended divergence points identically — as witnessed by the
equality of their declaration lists filtered to those names, which cover
the twelve utility aliases, `PropertyKey`, `Object`, `Function`,
`CallableFunction`, `NewableFunction`, `IArguments`, `RegExp`, the
`Promise` family, the four template-literal intrinsics, and also the
primitive shells and the `Symbol` constant — and they diverge exactly at
the array index key type (`number` vs `int`), the `SymbolConstructor`
member set, and the iterator/generator family. -/
theorem variants_agree_outside_divergence :
    outsideDivergence plainVariant = outsideDivergence typedVariant ∧
    (outsideDivergence plainVariant).map Decl.declName
      = [("String"), ("Number"), ("Boolean"), ("Object"), ("Function"),
         ("CallableFunction"), ("NewableFunction"), ("IArguments"), ("RegExp"),
         ("Symbol"), ("PropertyKey"),
         ("Partial"), ("Required"), ("Readonly"), ("Pick"), ("Record"),
         ("Exclude"), ("Extract"), ("Omit"), ("NonNullable"),
         ("Parameters"), ("ReturnType"), ("InstanceType"),
         ("Promise"), ("PromiseLike"), ("PromiseConstructor"), ("Promise"),
         ("Uppercase"), ("Lowercase"), ("Capitalize"), ("Uncapitalize")] ∧
    idxKeyNames (membersOf plainVariant ("Array")) = [("number")] ∧
    idxKeyNames (membersOf typedVariant ("Array")) = [("int")] ∧
    (idxKeyNames (membersOf plainVariant ("Array"))
      == idxKeyNames (membersOf typedVariant ("Array"))) = false ∧
    memberLabels plainVariant ("SymbolConstructor") = [("iterator"), ("asyncIterator")] ∧
    memberLabels typedVariant ("SymbolConstructor") = [("iterator")] ∧
    (memberLabels plainVariant ("SymbolConstructor")
      == memberLabels typedVariant ("SymbolConstructor")) = false ∧
    (memberLabels plainVariant ("Iterator")
      == memberLabels typedVariant ("Iterator")) = false ∧
    declaresName plainVariant ("Generator") = true ∧
    declaresName typedVariant ("Generator") = false ∧
    declaresName plainVariant ("AsyncIterator") = true ∧
    declaresName typedVariant ("AsyncIterator") = false :=
  ⟨rfl, rfl, rfl, rfl, rfl, rfl, rfl, rfl, rfl, rfl, rfl, rfl, rfl⟩

end DotnetGlobals
